import Mathlib

/-
  Verification development for the NIST quality validation test driver
  (src/quality/src/testdriver/validate_quality.cpp), against the data
  declarations of src/five/src/include/five_structs.h.

  The vendor algorithm, image decoding and the quality-measure
  enumeration are external collaborators of the driver; they are
  modelled as oracle fields of the Env structure below.  Machine
  integers of the source (int16_t bounding boxes, enum underlying
  values) never overflow in the driver, so they are embedded as Int.
  Double-valued quality measures are embedded by the decimal string
  the driver would obtain from to_string, since the driver only ever
  streams them to the log and never computes with them.
-/

namespace NistQuality

/-- Return codes of five_structs.h (enum class ReturnCode, values 0..15). -/
inductive ReturnCode where
  | Success
  | UnknownError
  | ConfigError
  | RefuseInput
  | ExtractError
  | ParseError
  | TemplateCreationError
  | VerifTemplateError
  | FaceDetectionError
  | NumDataError
  | TemplateFormatError
  | EnrollDirError
  | InputLocationError
  | MemoryError
  | NotImplemented
  | VendorError
deriving DecidableEq, Repr

/-- Underlying integer value of each ReturnCode, as fixed in five_structs.h;
    this is what static_cast to the underlying type yields in the driver. -/
def ReturnCode.val : ReturnCode → Int
  | .Success => 0
  | .UnknownError => 1
  | .ConfigError => 2
  | .RefuseInput => 3
  | .ExtractError => 4
  | .ParseError => 5
  | .TemplateCreationError => 6
  | .VerifTemplateError => 7
  | .FaceDetectionError => 8
  | .NumDataError => 9
  | .TemplateFormatError => 10
  | .EnrollDirError => 11
  | .InputLocationError => 12
  | .MemoryError => 13
  | .NotImplemented => 14
  | .VendorError => 15

/-- ReturnStatus of five_structs.h: a code plus an optional info string. -/
structure ReturnStatus where
  code : ReturnCode
  info : String
deriving DecidableEq, Repr

/-- The default-constructed ReturnStatus of five_structs.h:
    code UnknownError, empty info string. -/
def ReturnStatus.default : ReturnStatus :=
  { code := ReturnCode.UnknownError, info := "" }

/-- Image description labels of five_structs.h (Image::ImageDescription). -/
inductive ImageDescription where
  | Unknown
  | StillISO
  | StillMugshot
  | StillPhotojournalism
  | StillWild
  | VideoLongRange
  | VideoPhotojournalism
  | VideoPassiveObservation
  | VideoChokepoint
  | VideoElevatedPlatform
deriving DecidableEq, Repr

/-- Illuminant labels of five_structs.h (Image::Illuminant). -/
inductive Illuminant where
  | Unspecified
  | Visible
deriving DecidableEq, Repr

/-- Image struct of five_structs.h: raster data plus labels.  The raster
    bytes are a byte list; the driver never inspects them itself. -/
structure Image where
  width : Nat
  height : Nat
  depth : Nat
  data : List Nat
  description : ImageDescription
  illuminant : Illuminant
deriving DecidableEq, Repr

/-- Bounding box of five_structs.h (int16_t fields, embedded as Int). -/
structure BoundingBox where
  xleft : Int
  ytop : Int
  width : Int
  height : Int
deriving DecidableEq, Repr

/-- The default-constructed BoundingBox of five_structs.h: all fields -1. -/
def BoundingBox.default : BoundingBox :=
  { xleft := -1, ytop := -1, width := -1, height := -1 }

/-- Modelled from the spec: the QualityMeasure enumeration of the quality
    interface header, which is not under src.  The spec only requires a
    fixed enumeration order from Begin to End, so a measure is identified
    by its ordinal in that fixed order. -/
abbrev QualityMeasure := Nat

/-- Modelled from the spec: the per-image assessment returned by the
    algorithm - a bounding box and a map from quality measure to a
    numeric value, some measures possibly absent.  The map is an
    association list; values carry their decimal rendering. -/
structure ImageQualityAssessment where
  boundingBox : BoundingBox
  qAssessments : List (QualityMeasure × String)
deriving DecidableEq, Repr

/-- The default-constructed assessment: default box, empty map. -/
def ImageQualityAssessment.default : ImageQualityAssessment :=
  { boundingBox := BoundingBox.default, qAssessments := [] }

/-- One manifest record: the three whitespace-separated fields read by
    the driver from a shard line. -/
structure Record where
  id : String
  imagePath : String
  desc : String
deriving DecidableEq, Repr

/-- Modelled from the spec: the CLI action selector of util.h (absent
    from src).  The driver only ever forks workers for the vectorQ
    action; every other action token is some other value. -/
inductive Action where
  | VectorQ
  | Other
deriving DecidableEq, Repr

/-- Modelled from the spec: exit code 0 is success (util.h is absent
    from src; the spec fixes 0 = success and two distinct non-zero
    codes for generic failure and for capability-not-implemented). -/
def SUCCESS : Int := 0

/-- Modelled from the spec: the distinct non-zero generic failure code. -/
def FAILURE : Int := 1

/-- Modelled from the spec: the distinct non-zero code reporting that the
    algorithm does not implement the requested capability. -/
def NOT_IMPLEMENTED : Int := 2

/-- The C constant EXIT_FAILURE used by usage(). -/
def EXIT_FAILURE : Int := 1

/-- Oracles for the external collaborators of one worker process:
    image decoding, the label lookup table, the vendor algorithm, and
    the fixed quality-measure enumeration of the interface header.
    vectorQuality takes the index of the call within the worker, so
    stateful vendor implementations are covered. -/
structure Env where
  readImage : String → Option Image
  mapStringToImgLabel : String → ImageDescription
  vectorQuality : Nat → Image → ReturnStatus × ImageQualityAssessment
  measures : List QualityMeasure
  measureName : QualityMeasure → String

/-- The image handed to the algorithm: the decoded raster with the
    description label of the manifest record attached (runQuality lines
    65-67 of validate_quality.cpp). -/
def faceOf (env : Env) (r : Record) (img : Image) : Image :=
  { img with description := env.mapStringToImgLabel r.desc }

/-- A log line, as its list of space-separated column tokens. -/
abbrev LogLine := List String

/-- The header line written by runQuality for the vectorQ action:
    fixed column names, then one column per quality measure in the
    fixed enumeration order. -/
def headerLine (env : Env) : LogLine :=
  ["id", "image", "returnCode", "bb_xleft", "bb_ytop", "bb_width", "bb_height"]
    ++ env.measures.map env.measureName

/-- The data row runQuality appends for one evaluated record: id, image
    path, status code as integer, the four bounding box fields, then one
    value per quality measure in the fixed order, NA where absent. -/
def logRow (env : Env) (r : Record) (st : ReturnStatus)
    (asm : ImageQualityAssessment) : LogLine :=
  [r.id, r.imagePath, toString st.code.val,
   toString asm.boundingBox.xleft, toString asm.boundingBox.ytop,
   toString asm.boundingBox.width, toString asm.boundingBox.height]
    ++ env.measures.map (fun m =>
        match asm.qAssessments.lookup m with
        | some v => v
        | none => "NA")

/-- Outcome of the record loop of runQuality: either the worker died on
    a raised fatal signal after writing some lines, or the loop finished
    (exhaustion or break) with the lines written and the final ret. -/
inductive LoopOut where
  | signal (lines : List LogLine)
  | finished (lines : List LogLine) (ret : ReturnStatus)
deriving DecidableEq, Repr

/-- The record loop of runQuality (validate_quality.cpp lines 57-91):
    for each record decode the image (raise SIGTERM on failure), attach
    the label, call vectorQuality when the action is vectorQ, break
    before logging when the returned code is NotImplemented, otherwise
    append the data row and continue.  idx counts vectorQuality calls;
    ret is the ReturnStatus variable living across iterations. -/
def runLoop (env : Env) (action : Action) :
    Nat → ReturnStatus → List Record → LoopOut
  | _, ret, [] => LoopOut.finished [] ret
  | idx, ret, r :: rest =>
    match env.readImage r.imagePath with
    | none => LoopOut.signal []
    | some img =>
      let pr := if action = Action.VectorQ
                then env.vectorQuality idx (faceOf env r img)
                else (ret, ImageQualityAssessment.default)
      if pr.1.code = ReturnCode.NotImplemented then LoopOut.finished [] pr.1
      else
        let lines := if action = Action.VectorQ
                     then [logRow env r pr.1 pr.2] else []
        match runLoop env action (idx + 1) pr.1 rest with
        | LoopOut.signal ls => LoopOut.signal (lines ++ ls)
        | LoopOut.finished ls rf => LoopOut.finished (lines ++ ls) rf

/-- How one worker ends: killed by the raised signal, or a normal return
    with an exit code. -/
inductive RunExit where
  | signaled
  | exit (code : Int)
deriving DecidableEq, Repr

/-- Observable result of one runQuality call: the lines written to the
    shard log, whether the shard input file and the log were deleted,
    and how the worker ended. -/
structure RunResult where
  log : List LogLine
  inputDeleted : Bool
  logDeleted : Bool
  exit : RunExit
deriving DecidableEq, Repr

/-- The postlude of runQuality (lines 92-105): the input file is always
    removed once the loop is over; on the NotImplemented code the log is
    removed too and NOT_IMPLEMENTED returned, otherwise SUCCESS.  done
    holds the lines already written before the loop ran. -/
def finishRun (done : List LogLine) : LoopOut → RunResult
  | LoopOut.signal ls =>
      { log := done ++ ls, inputDeleted := false,
        logDeleted := false, exit := RunExit.signaled }
  | LoopOut.finished ls ret =>
      if ret.code = ReturnCode.NotImplemented then
        { log := done ++ ls, inputDeleted := true,
          logDeleted := true, exit := RunExit.exit NOT_IMPLEMENTED }
      else
        { log := done ++ ls, inputDeleted := true,
          logDeleted := false, exit := RunExit.exit SUCCESS }

/-- runQuality of validate_quality.cpp on the parsed records of one
    shard: write the header when the action is vectorQ, run the record
    loop starting from the default-constructed ReturnStatus, then clean
    up and compute the exit code. -/
def runQuality (env : Env) (records : List Record) (action : Action) :
    RunResult :=
  finishRun (if action = Action.VectorQ then [headerLine env] else [])
    (runLoop env action 0 ReturnStatus.default records)

/-- The files runQuality removed, given the shard input path and the
    shard log path it was called with. -/
def deletedFiles (res : RunResult) (inputFile outputLog : String) :
    List String :=
  (if res.inputDeleted then [inputFile] else [])
    ++ (if res.logDeleted then [outputLog] else [])

/-- Modelled from the spec: splitInputFile of util.cpp (absent from
    src).  Per spec section 4.2 it distributes the manifest records over
    N shard files as a roughly-equal contiguous split: shard 0 gets the
    first block, shard 1 the next, and so on, with the exact imbalance
    policy an implementation choice; here each shard takes a 1/remaining
    share of what is left. -/
def splitRecords : List Record → Nat → List (List Record)
  | _, 0 => []
  | recs, 1 => [recs]
  | recs, n + 2 =>
    recs.take (recs.length / (n + 2))
      :: splitRecords (recs.drop (recs.length / (n + 2))) (n + 1)

/- ----------------------------------------------------------------- -/
/- The main driver: version gate, flag parsing, orchestration.        -/
/- ----------------------------------------------------------------- -/

/-- Expected interface major version hardcoded in main (line 122). -/
def currAPIMajorVersion : Nat := 4

/-- Expected interface minor version hardcoded in main (line 123). -/
def currAPIMinorVersion : Nat := 1

/-- Expected data-contract major version hardcoded in main (line 124). -/
def currStructsMajorVersion : Nat := 3

/-- Expected data-contract minor version hardcoded in main (line 125). -/
def currStructsMinorVersion : Nat := 0

/-- The four version constants declared by the loaded vendor library. -/
structure VersionInfo where
  structsMajor : Nat
  structsMinor : Nat
  apiMajor : Nat
  apiMinor : Nat
deriving DecidableEq, Repr

/-- Content of one version-mismatch diagnostic: which pair mismatched,
    the actual major.minor printed first, and the major.minor printed
    after the re-build request (the values the message shows as the
    expected version). -/
structure VersionDiag where
  pairName : String
  actualMajor : Nat
  actualMinor : Nat
  shownExpectedMajor : Nat
  shownExpectedMinor : Nat
deriving DecidableEq, Repr

/-- The version gate of main (lines 128-148).  The structs pair is
    checked first; its message shows the expected pair correctly.  The
    interface pair message prints currAPIMajorVersion followed by
    currStructsMinorVersion (line 146 of the source), exactly as the
    source does. -/
def versionGate (v : VersionInfo) : Option VersionDiag :=
  if v.structsMajor ≠ currStructsMajorVersion
      ∨ v.structsMinor ≠ currStructsMinorVersion then
    some { pairName := "frvt_structs.h",
           actualMajor := v.structsMajor, actualMinor := v.structsMinor,
           shownExpectedMajor := currStructsMajorVersion,
           shownExpectedMinor := currStructsMinorVersion }
  else if v.apiMajor ≠ currAPIMajorVersion
      ∨ v.apiMinor ≠ currAPIMinorVersion then
    some { pairName := "API header",
           actualMajor := v.apiMajor, actualMinor := v.apiMinor,
           shownExpectedMajor := currAPIMajorVersion,
           shownExpectedMinor := currStructsMinorVersion }
  else none

/-- The CLI flag values of main with their declared defaults
    (lines 154-159). -/
structure Args where
  configDir : String
  outputDir : String
  outputFileStem : String
  inputFile : String
  numForks : Int
deriving DecidableEq, Repr

/-- The values main starts from before reading any flag. -/
def defaultArgs : Args :=
  { configDir := "config", outputDir := "output",
    outputFileStem := "stem", inputFile := "", numForks := 1 }

/-- C atoi on the digits of the argument (sign then leading digits,
    anything else ends the number; non-numeric input gives 0). -/
def atoiNat : List Char → Nat → Nat
  | [], acc => acc
  | c :: cs, acc =>
    if c.isDigit then atoiNat cs (acc * 10 + (c.toNat - 48)) else acc

/-- C atoi as used for the -t flag (line 171). -/
def atoi (s : String) : Int :=
  match s.data with
  | '-' :: cs => -(atoiNat cs 0 : Int)
  | '+' :: cs => (atoiNat cs 0 : Int)
  | cs => (atoiNat cs 0 : Int)

/-- Outcome of the flag loop of main (lines 161-176): parsed values, a
    call to usage() on an unrecognized flag, or the undefined C
    behavior of reading the null argv entry past the last argument when
    a recognized flag has no value. -/
inductive ParseOut where
  | ok (a : Args)
  | usageExit
  | undef
deriving DecidableEq, Repr

/-- The flag loop of main over the arguments after the program name and
    the action token: each recognized flag consumes the next argument
    as its value; the first unrecognized flag calls usage(). -/
def parseFlags : List String → Args → ParseOut
  | [], a => ParseOut.ok a
  | "-c" :: v :: rest, a => parseFlags rest { a with configDir := v }
  | "-o" :: v :: rest, a => parseFlags rest { a with outputDir := v }
  | "-h" :: v :: rest, a => parseFlags rest { a with outputFileStem := v }
  | "-i" :: v :: rest, a => parseFlags rest { a with inputFile := v }
  | "-t" :: v :: rest, a => parseFlags rest { a with numForks := atoi v }
  | [f], _ =>
    if f = "-c" ∨ f = "-o" ∨ f = "-h" ∨ f = "-i" ∨ f = "-t"
    then ParseOut.undef else ParseOut.usageExit
  | _ :: _ :: _, _ => ParseOut.usageExit

/-- What the parent observes from wait() for one reaped child: a normal
    termination with its WEXITSTATUS value, a signal termination with
    the signal number, or neither. -/
inductive ChildStatus where
  | exited (code : Nat)
  | signaled (sig : Nat)
  | unknown
deriving DecidableEq, Repr

/-- The join loop of main (lines 231-248) over the child statuses in
    reaping order: each reaped child OVERWRITES exitStatus - with its
    WEXITSTATUS when it exited normally, with FAILURE when it was
    signaled or its status is unrecognized. -/
def waitLoop : List ChildStatus → Int → Int
  | [], e => e
  | s :: rest, _ =>
    waitLoop rest
      (match s with
       | ChildStatus.exited c => (c : Int)
       | ChildStatus.signaled _ => FAILURE
       | ChildStatus.unknown => FAILURE)

/-- Inputs of one main invocation, with the external collaborators as
    oracles: the version constants of the loaded library, argv, the
    action token lookup table of util.h (absent from src, modelled from
    the spec), the status returned by the single parent-side
    configuration-loading call, whether splitInputFile succeeded, and
    the child statuses in the order wait() reaps them. -/
structure MainEnv where
  versions : VersionInfo
  argv : List String
  actionMap : String → Action
  initStatus : ReturnStatus
  splitOk : Bool
  childStatuses : List ChildStatus

/-- Observable trace of one main invocation: the version diagnostic if
    one was printed, whether usage() ran, whether getImplementation and
    the configuration-loading call happened, whether splitInputFile was
    called, whether any child was forked, and the exit code (none on
    the undefined-behavior flag-parsing path). -/
structure MainTrace where
  versionDiag : Option VersionDiag
  printedUsage : Bool
  gotImpl : Bool
  initCalled : Bool
  splitCalled : Bool
  forked : Bool
  exit : Option Int
deriving DecidableEq, Repr

/-- main of validate_quality.cpp (lines 115-251): version gate, argc
    guard, flag loop, action switch, getImplementation plus the single
    configuration-loading call, splitInputFile, fork loop, join loop. -/
def mainModel (e : MainEnv) : MainTrace :=
  match versionGate e.versions with
  | some d =>
      { versionDiag := some d, printedUsage := false, gotImpl := false,
        initCalled := false, splitCalled := false, forked := false,
        exit := some FAILURE }
  | none =>
    if e.argv.length < 2 then
      { versionDiag := none, printedUsage := true, gotImpl := false,
        initCalled := false, splitCalled := false, forked := false,
        exit := some EXIT_FAILURE }
    else
      match parseFlags (e.argv.drop 2) defaultArgs with
      | ParseOut.undef =>
          { versionDiag := none, printedUsage := false, gotImpl := false,
            initCalled := false, splitCalled := false, forked := false,
            exit := none }
      | ParseOut.usageExit =>
          { versionDiag := none, printedUsage := true, gotImpl := false,
            initCalled := false, splitCalled := false, forked := false,
            exit := some EXIT_FAILURE }
      | ParseOut.ok _ =>
        match e.actionMap (e.argv.getD 1 "") with
        | Action.Other =>
            { versionDiag := none, printedUsage := true, gotImpl := false,
              initCalled := false, splitCalled := false, forked := false,
              exit := some EXIT_FAILURE }
        | Action.VectorQ =>
          if e.initStatus.code ≠ ReturnCode.Success then
            { versionDiag := none, printedUsage := false, gotImpl := true,
              initCalled := true, splitCalled := false, forked := false,
              exit := some FAILURE }
          else if ¬ e.splitOk then
            { versionDiag := none, printedUsage := false, gotImpl := true,
              initCalled := true, splitCalled := true, forked := false,
              exit := some FAILURE }
          else
            { versionDiag := none, printedUsage := false, gotImpl := true,
              initCalled := true, splitCalled := true, forked := true,
              exit := some (waitLoop e.childStatuses SUCCESS) }

/- ----------------------------------------------------------------- -/
/- Derived views of the record loop, used to state the claims.        -/
/- ----------------------------------------------------------------- -/

/-- What the vectorQ evaluation of record r as call number idx yields:
    none when image decoding fails, otherwise the status and assessment
    returned by the algorithm on the labelled raster. -/
def evalAt (env : Env) (idx : Nat) (r : Record) :
    Option (ReturnStatus × ImageQualityAssessment) :=
  (env.readImage r.imagePath).map
    (fun img => env.vectorQuality idx (faceOf env r img))

/-- The status of the vectorQ evaluation of record r as call idx
    (default status when the image does not decode - unused then). -/
def statusOf (env : Env) (idx : Nat) (r : Record) : ReturnStatus :=
  match evalAt env idx r with
  | some p => p.1
  | none => ReturnStatus.default

/-- The data row the loop writes for record r as call idx (empty when
    the image does not decode - unused then). -/
def rowAt (env : Env) (idx : Nat) (r : Record) : LogLine :=
  match evalAt env idx r with
  | some p => logRow env r p.1 p.2
  | none => []

/-- The data rows for a block of consecutive records starting at call
    index idx. -/
def rowsFor (env : Env) : Nat → List Record → List LogLine
  | _, [] => []
  | idx, r :: rest => rowAt env idx r :: rowsFor env (idx + 1) rest

/-- The value of the loop-carried ReturnStatus variable after a block
    of records has been processed without a break. -/
def retAfter (env : Env) : Nat → ReturnStatus → List Record → ReturnStatus
  | _, ret, [] => ret
  | idx, _, r :: rest => retAfter env (idx + 1) (statusOf env idx r) rest

/-- True when every record of the block, evaluated at its own call
    index, decodes and yields a code other than NotImplemented - the
    condition for the loop to pass through the whole block. -/
def processedOk (env : Env) : Nat → List Record → Bool
  | _, [] => true
  | idx, r :: rest =>
    match evalAt env idx r with
    | none => false
    | some p =>
      if p.1.code = ReturnCode.NotImplemented then false
      else processedOk env (idx + 1) rest

/-- The lines carried by a loop outcome. -/
def linesOf : LoopOut → List LogLine
  | LoopOut.signal ls => ls
  | LoopOut.finished ls _ => ls

/-- Prepending already-written lines to a loop outcome. -/
def withLines (done : List LogLine) : LoopOut → LoopOut
  | LoopOut.signal ls => LoopOut.signal (done ++ ls)
  | LoopOut.finished ls rf => LoopOut.finished (done ++ ls) rf

/- ----------------------------------------------------------------- -/
/- Loop lemmas.                                                       -/
/- ----------------------------------------------------------------- -/

theorem finishRun_withLines (done pre : List LogLine) (out : LoopOut) :
    finishRun done (withLines pre out) = finishRun (done ++ pre) out := by
  cases out with
  | signal ls => simp [finishRun, withLines]
  | finished ls ret =>
    by_cases h : ret.code = ReturnCode.NotImplemented <;>
      simp [finishRun, withLines, h]

theorem runLoop_vectorQ_cons (env : Env) (idx : Nat) (ret : ReturnStatus)
    (r : Record) (rest : List Record) (st : ReturnStatus)
    (asm : ImageQualityAssessment)
    (h : evalAt env idx r = some (st, asm)) :
    runLoop env Action.VectorQ idx ret (r :: rest) =
      if st.code = ReturnCode.NotImplemented then LoopOut.finished [] st
      else withLines [logRow env r st asm]
        (runLoop env Action.VectorQ (idx + 1) st rest) := by
  obtain ⟨img, ho, hv⟩ : ∃ img, env.readImage r.imagePath = some img
      ∧ env.vectorQuality idx (faceOf env r img) = (st, asm) := by
    rcases ho : env.readImage r.imagePath with _ | img
    · simp [evalAt, ho] at h
    · refine ⟨img, rfl, ?_⟩
      simpa [evalAt, ho] using h
  simp only [runLoop, ho, hv, reduceIte]
  by_cases hni : st.code = ReturnCode.NotImplemented
  · simp [hni]
  · rw [if_neg hni, if_neg hni]
    cases hrec : runLoop env Action.VectorQ (idx + 1) st rest <;>
      simp [withLines, hrec]

theorem runLoop_vectorQ_pre (env : Env) :
    ∀ (pre : List Record) (idx : Nat) (ret : ReturnStatus)
      (rest : List Record),
    processedOk env idx pre = true →
    runLoop env Action.VectorQ idx ret (pre ++ rest) =
      withLines (rowsFor env idx pre)
        (runLoop env Action.VectorQ (idx + pre.length)
          (retAfter env idx ret pre) rest) := by
  intro pre
  induction pre with
  | nil =>
    intro idx ret rest _
    cases h : runLoop env Action.VectorQ idx ret rest <;>
      simp [rowsFor, retAfter, withLines, h]
  | cons r pre ih =>
    intro idx ret rest hok
    rcases he : evalAt env idx r with _ | ⟨st, asm⟩
    · simp [processedOk, he] at hok
    · have hni : ¬ st.code = ReturnCode.NotImplemented := by
        simp only [processedOk, he] at hok
        intro hc
        simp [hc] at hok
      have hok' : processedOk env (idx + 1) pre = true := by
        simp only [processedOk, he] at hok
        simpa [hni] using hok
      have hstep := runLoop_vectorQ_cons env idx ret r (pre ++ rest) st asm he
      rw [List.cons_append, hstep, if_neg hni, ih (idx + 1) st rest hok']
      have hlen : idx + 1 + pre.length = idx + (pre.length + 1) := by omega
      have hst : statusOf env idx r = st := by simp [statusOf, he]
      have hrow : rowAt env idx r = logRow env r st asm := by
        simp [rowAt, he]
      cases hres : runLoop env Action.VectorQ (idx + (pre.length + 1))
          (retAfter env (idx + 1) st pre) rest <;>
        simp [withLines, rowsFor, retAfter, hst, hrow, hlen, hres]

theorem runLoop_lines_from_records (env : Env) :
    ∀ (recs : List Record) (idx : Nat) (ret : ReturnStatus)
      (line : LogLine),
    line ∈ linesOf (runLoop env Action.VectorQ idx ret recs) →
    ∃ k r st asm, recs.get? k = some r
      ∧ evalAt env (idx + k) r = some (st, asm)
      ∧ st.code ≠ ReturnCode.NotImplemented
      ∧ line = logRow env r st asm := by
  intro recs
  induction recs with
  | nil =>
    intro idx ret line hmem
    simp [runLoop, linesOf] at hmem
  | cons r rest ih =>
    intro idx ret line hmem
    rcases he : evalAt env idx r with _ | ⟨st, asm⟩
    · rcases ho : env.readImage r.imagePath with _ | img
      · simp [runLoop, ho, linesOf] at hmem
      · simp [evalAt, ho] at he
    · rw [runLoop_vectorQ_cons env idx ret r rest st asm he] at hmem
      by_cases hni : st.code = ReturnCode.NotImplemented
      · rw [if_pos hni] at hmem
        simp [linesOf] at hmem
      · rw [if_neg hni] at hmem
        have hmem' : line = logRow env r st asm ∨
            line ∈ linesOf (runLoop env Action.VectorQ (idx + 1) st rest) := by
          cases hres : runLoop env Action.VectorQ (idx + 1) st rest <;>
            rw [hres] at hmem <;> simpa [withLines, linesOf] using hmem
        rcases hmem' with hline | htail
        · exact ⟨0, r, st, asm, rfl, by simpa using he, hni, hline⟩
        · obtain ⟨k, r', st', asm', hget, hev, hni', hline⟩ :=
            ih (idx + 1) st line htail
          refine ⟨k + 1, r', st', asm', hget, ?_, hni', hline⟩
          rw [show idx + (k + 1) = idx + 1 + k from by omega]
          exact hev

theorem runQuality_vectorQ_decomp (env : Env) (pre rest : List Record)
    (h : processedOk env 0 pre = true) :
    runQuality env (pre ++ rest) Action.VectorQ =
      finishRun (headerLine env :: rowsFor env 0 pre)
        (runLoop env Action.VectorQ pre.length
          (retAfter env 0 ReturnStatus.default pre) rest) := by
  rw [runQuality, if_pos rfl,
    runLoop_vectorQ_pre env pre 0 ReturnStatus.default rest h,
    finishRun_withLines]
  simp

theorem splitRecords_flatten :
    ∀ (n : Nat) (recs : List Record), 1 ≤ n →
    (splitRecords recs n).flatten = recs := by
  intro n
  induction n with
  | zero => intro recs h; exact absurd h (by omega)
  | succ m ih =>
    intro recs _
    cases m with
    | zero => simp [splitRecords]
    | succ k =>
      simp only [splitRecords, List.flatten_cons]
      rw [ih _ (by omega)]
      exact List.take_append_drop _ _

theorem splitRecords_length :
    ∀ (n : Nat) (recs : List Record), 1 ≤ n →
    (splitRecords recs n).length = n := by
  intro n
  induction n with
  | zero => intro recs h; exact absurd h (by omega)
  | succ m ih =>
    intro recs _
    cases m with
    | zero => simp [splitRecords]
    | succ k =>
      simp only [splitRecords, List.length_cons]
      rw [ih _ (by omega)]

/- ----------------------------------------------------------------- -/
/- Claim theorems.                                                    -/
/- ----------------------------------------------------------------- -/

/-- Claim C4: for every manifest and every requested shard count N with
    N at least 1, the partitioner yields exactly N shards whose records,
    concatenated in shard order then in-shard order, are the original
    records in the original order, and the per-shard counts sum to the
    manifest size. -/
theorem c4_partition_complete (recs : List Record) (n : Nat) (h : 1 ≤ n) :
    (splitRecords recs n).flatten = recs
    ∧ ((splitRecords recs n).map List.length).sum = recs.length
    ∧ (splitRecords recs n).length = n := by
  have hj := splitRecords_flatten n recs h
  refine ⟨hj, ?_, splitRecords_length n recs h⟩
  rw [← List.length_flatten, hj]

/-- Claim C10: on a shard with zero records, runQuality writes only the
    header line, deletes the shard input, keeps the log, and returns the
    success outcome, because the default-constructed ReturnStatus code
    is UnknownError, which is not the NotImplemented sentinel. -/
theorem c10_empty_shard (env : Env) :
    runQuality env [] Action.VectorQ =
      { log := [headerLine env], inputDeleted := true,
        logDeleted := false, exit := RunExit.exit SUCCESS }
    ∧ ReturnStatus.default.code = ReturnCode.UnknownError
    ∧ ReturnCode.UnknownError ≠ ReturnCode.NotImplemented := by
  refine ⟨?_, rfl, by decide⟩
  simp [runQuality, runLoop, finishRun, ReturnStatus.default]

/-- Claim C2: when the algorithm returns the NotImplemented code on the
    record after an ok-processed block, runQuality logs nothing for that
    record or any later one, deletes the shard input, deletes the log,
    and returns NOT_IMPLEMENTED, which differs from both SUCCESS and
    FAILURE. -/
theorem c2_not_implemented_short_circuit (env : Env) (pre : List Record)
    (r : Record) (post : List Record) (st : ReturnStatus)
    (asm : ImageQualityAssessment)
    (hpre : processedOk env 0 pre = true)
    (hr : evalAt env pre.length r = some (st, asm))
    (hni : st.code = ReturnCode.NotImplemented) :
    runQuality env (pre ++ r :: post) Action.VectorQ =
      { log := headerLine env :: rowsFor env 0 pre,
        inputDeleted := true, logDeleted := true,
        exit := RunExit.exit NOT_IMPLEMENTED }
    ∧ NOT_IMPLEMENTED ≠ SUCCESS ∧ NOT_IMPLEMENTED ≠ FAILURE := by
  refine ⟨?_, by decide, by decide⟩
  rw [runQuality_vectorQ_decomp env pre (r :: post) hpre,
    runLoop_vectorQ_cons env pre.length _ r post st asm hr, if_pos hni]
  simp [finishRun, hni]

/-- Claim C5: a record whose returned status is neither Success nor
    NotImplemented gets a normal data row (with the status code rendered
    as an integer in the third column) and the run then continues with
    the remaining records of the shard exactly as if nothing happened:
    the result is the continuation of the run on the rest. -/
theorem c5_record_failure_continues (env : Env) (pre : List Record)
    (r : Record) (post : List Record) (st : ReturnStatus)
    (asm : ImageQualityAssessment)
    (hpre : processedOk env 0 pre = true)
    (hr : evalAt env pre.length r = some (st, asm))
    (_hfail : st.code ≠ ReturnCode.Success)
    (hni : st.code ≠ ReturnCode.NotImplemented) :
    runQuality env (pre ++ r :: post) Action.VectorQ =
      finishRun ((headerLine env :: rowsFor env 0 pre)
          ++ [logRow env r st asm])
        (runLoop env Action.VectorQ (pre.length + 1) st post)
    ∧ (logRow env r st asm).get? 2 = some (toString st.code.val) := by
  refine ⟨?_, rfl⟩
  rw [runQuality_vectorQ_decomp env pre (r :: post) hpre,
    runLoop_vectorQ_cons env pre.length _ r post st asm hr, if_neg hni,
    finishRun_withLines]

/-- Claim C6: every vectorQ log starts with exactly one header line of
    the fixed column names followed by one column per measure in the
    fixed enumeration order, and every following line is the row of some
    evaluated record: id, image path, status code as integer, the four
    bounding box fields, then one value per measure in the fixed order
    with the literal NA for measures absent from the returned map. -/
theorem c6_log_format (env : Env) (recs : List Record) :
    ∃ rows, (runQuality env recs Action.VectorQ).log = headerLine env :: rows
    ∧ headerLine env = ["id", "image", "returnCode", "bb_xleft", "bb_ytop",
        "bb_width", "bb_height"] ++ env.measures.map env.measureName
    ∧ ∀ line ∈ rows, ∃ k r st asm, recs.get? k = some r
        ∧ evalAt env k r = some (st, asm)
        ∧ line = [r.id, r.imagePath, toString st.code.val,
            toString asm.boundingBox.xleft, toString asm.boundingBox.ytop,
            toString asm.boundingBox.width, toString asm.boundingBox.height]
          ++ env.measures.map (fun m =>
              match asm.qAssessments.lookup m with
              | some v => v
              | none => "NA") := by
  refine ⟨linesOf (runLoop env Action.VectorQ 0 ReturnStatus.default recs),
    ?_, rfl, ?_⟩
  · cases hout : runLoop env Action.VectorQ 0 ReturnStatus.default recs with
    | signal ls => simp [runQuality, hout, finishRun, linesOf]
    | finished ls ret =>
      by_cases hni : ret.code = ReturnCode.NotImplemented <;>
        simp [runQuality, hout, finishRun, linesOf, hni]
  · intro line hmem
    obtain ⟨k, r, st, asm, hget, hev, _, hline⟩ :=
      runLoop_lines_from_records env recs 0 ReturnStatus.default line hmem
    exact ⟨k, r, st, asm, hget, by simpa using hev, by rw [hline]; rfl⟩

/-- Claim C7: whenever runQuality completes rather than dying on a
    signal, the shard input has been deleted; the shard log is deleted
    exactly on the NOT_IMPLEMENTED outcome and retained on SUCCESS; and
    nothing other than the shard input and the shard log is ever
    deleted, so the manifest, being a different file, never is. -/
theorem c7_cleanup (env : Env) (recs : List Record) (action : Action)
    (manifest inF outL : String)
    (h : (runQuality env recs action).exit ≠ RunExit.signaled) :
    (runQuality env recs action).inputDeleted = true
    ∧ ((runQuality env recs action).logDeleted = true ↔
        (runQuality env recs action).exit = RunExit.exit NOT_IMPLEMENTED)
    ∧ ((runQuality env recs action).exit = RunExit.exit SUCCESS →
        (runQuality env recs action).logDeleted = false)
    ∧ (manifest ≠ inF → manifest ≠ outL →
        manifest ∉ deletedFiles (runQuality env recs action) inF outL) := by
  rw [runQuality] at h ⊢
  cases hout : runLoop env action 0 ReturnStatus.default recs with
  | signal ls =>
    rw [hout] at h
    simp [finishRun] at h
  | finished ls ret =>
    by_cases hni : ret.code = ReturnCode.NotImplemented
    · refine ⟨by simp [finishRun, hni], by simp [finishRun, hni], ?_, ?_⟩
      · intro hex
        simp [finishRun, hni, NOT_IMPLEMENTED, SUCCESS] at hex
      · intro h1 h2
        simp [finishRun, hni, deletedFiles, h1, h2]
    · refine ⟨by simp [finishRun, hni], ?_, by simp [finishRun, hni], ?_⟩
      · simp [finishRun, hni, NOT_IMPLEMENTED, SUCCESS]
      · intro h1 h2
        simp [finishRun, hni, deletedFiles, h1, h2]

/-- Claim C8: an image decode failure on a record after an ok-processed
    block kills the worker with the raised fatal signal: runQuality does
    not return normally, writes no row for that or any later record,
    does not skip to the next record, and deletes nothing. -/
theorem c8_decode_failure_aborts (env : Env) (pre : List Record)
    (r : Record) (post : List Record)
    (hpre : processedOk env 0 pre = true)
    (hbad : env.readImage r.imagePath = none) :
    runQuality env (pre ++ r :: post) Action.VectorQ =
      { log := headerLine env :: rowsFor env 0 pre,
        inputDeleted := false, logDeleted := false,
        exit := RunExit.signaled } := by
  rw [runQuality_vectorQ_decomp env pre (r :: post) hpre]
  simp [runLoop, hbad, withLines, finishRun]

/-- The trace of every usage() path of main: the message is printed and
    the process exits with EXIT_FAILURE before any algorithm method. -/
def usageTrace : MainTrace :=
  { versionDiag := none, printedUsage := true, gotImpl := false,
    initCalled := false, splitCalled := false, forked := false,
    exit := some EXIT_FAILURE }

/-- Modelled from the spec: the action token lookup of util.h maps the
    vectorQ token to the vectorQ action. -/
def stdActionMap : String → Action :=
  fun s => if s = "vectorQ" then Action.VectorQ else Action.Other

/-- A main invocation where two workers were forked and the parent
    reaps the signal-terminated worker first and a successful worker
    second. -/
def envC1 : MainEnv :=
  { versions := { structsMajor := 3, structsMinor := 0,
                  apiMajor := 4, apiMinor := 1 },
    argv := ["validate_quality", "vectorQ", "-i", "input.txt", "-t", "2"],
    actionMap := stdActionMap,
    initStatus := { code := ReturnCode.Success, info := "" },
    splitOk := true,
    childStatuses := [ChildStatus.signaled 11, ChildStatus.exited 0] }

/-- Claim C1 (evaluated at the failing input): the join loop of main
    overwrites exitStatus on every reaped child, so with a
    signal-terminated worker reaped before a successful worker the
    harness exits SUCCESS, and the same two workers reaped in the other
    order give FAILURE - the aggregate depends on reaping order and a
    signal-terminated child does not force failure. -/
theorem c1_wait_overwrites_failure :
    mainModel envC1 =
      { versionDiag := none, printedUsage := false, gotImpl := true,
        initCalled := true, splitCalled := true, forked := true,
        exit := some SUCCESS }
    ∧ waitLoop [ChildStatus.signaled 11, ChildStatus.exited 0] SUCCESS
        = SUCCESS
    ∧ waitLoop [ChildStatus.exited 0, ChildStatus.signaled 11] SUCCESS
        = FAILURE
    ∧ SUCCESS ≠ FAILURE := by
  refine ⟨by decide, by decide, by decide, by decide⟩

/-- A main invocation whose loaded library declares interface version
    (4,0) instead of the expected (4,1), structs version correct. -/
def envC3 : MainEnv :=
  { versions := { structsMajor := 3, structsMinor := 0,
                  apiMajor := 4, apiMinor := 0 },
    argv := ["validate_quality", "vectorQ", "-i", "input.txt"],
    actionMap := stdActionMap,
    initStatus := { code := ReturnCode.Success, info := "" },
    splitOk := true,
    childStatuses := [] }

/-- Claim C3 (evaluated at the failing input): on an interface version
    mismatch main does abort with FAILURE before the
    configuration-loading call, before partitioning and before forking,
    and does print a diagnostic naming the interface pair - but the
    expected version the message shows is 4.0, reusing the structs
    minor (source line 146), not the actual expected minor 1. -/
theorem c3_version_gate_diag :
    mainModel envC3 =
      { versionDiag :=
          some { pairName := "API header", actualMajor := 4,
                 actualMinor := 0, shownExpectedMajor := 4,
                 shownExpectedMinor := 0 },
        printedUsage := false, gotImpl := false, initCalled := false,
        splitCalled := false, forked := false, exit := some FAILURE }
    ∧ currAPIMinorVersion = 1
    ∧ (versionGate envC3.versions).map VersionDiag.shownExpectedMinor
        ≠ some currAPIMinorVersion := by
  refine ⟨by decide, rfl, by decide⟩

/-- A main invocation with correct versions and a command line carrying
    no flags at all - in particular no -i manifest flag. -/
def envC9missing : MainEnv :=
  { versions := { structsMajor := 3, structsMinor := 0,
                  apiMajor := 4, apiMinor := 1 },
    argv := ["validate_quality", "vectorQ"],
    actionMap := stdActionMap,
    initStatus := { code := ReturnCode.Success, info := "" },
    splitOk := false,
    childStatuses := [] }

/-- Claim C9 counterexample: with every flag missing - including the
    manifest flag -i that the usage line presents as required - main
    prints no usage message and does call getImplementation and the
    configuration-loading entry point, so a missing required flag does
    not terminate the run before the algorithm is touched. -/
theorem c9_missing_flag_counterexample :
    envC9missing.argv = ["validate_quality", "vectorQ"]
    ∧ (mainModel envC9missing).printedUsage = false
    ∧ (mainModel envC9missing).gotImpl = true
    ∧ (mainModel envC9missing).initCalled = true := by
  refine ⟨rfl, by decide, by decide, by decide⟩

/-- Claim C9 as amended: when the version gate passes, an unrecognized
    flag on the command line (flags can only appear after the action
    argument, so a command line whose flag loop hits one has an action
    argument) makes main print the usage message and exit with the
    failure code without touching the algorithm; a merely missing flag,
    however, never triggers usage: when the flag loop succeeds and the
    action is vectorQ, main proceeds to getImplementation and the
    configuration-loading call even with every flag absent (the
    defaults are used). -/
theorem c9_usage_gate (e : MainEnv)
    (hv : versionGate e.versions = none) :
    (parseFlags (e.argv.drop 2) defaultArgs = ParseOut.usageExit →
      mainModel e = usageTrace)
    ∧ (2 ≤ e.argv.length →
        ∀ a, parseFlags (e.argv.drop 2) defaultArgs = ParseOut.ok a →
        e.actionMap (e.argv[1]?.getD "") = Action.VectorQ →
        (mainModel e).printedUsage = false
        ∧ (mainModel e).gotImpl = true
        ∧ (mainModel e).initCalled = true) := by
  refine ⟨?_, ?_⟩
  · intro hp
    by_cases hlen : e.argv.length < 2
    · have hnil : e.argv.drop 2 = [] :=
        List.drop_eq_nil_of_le (by omega)
      rw [hnil] at hp
      exact absurd hp (by simp [parseFlags])
    · simp [mainModel, hv, hlen, hp, usageTrace]
  · intro hlen a hp ha
    have hlen' : ¬ e.argv.length < 2 := by omega
    by_cases hinit : e.initStatus.code = ReturnCode.Success
    · by_cases hsplit : e.splitOk = true <;>
        simp [mainModel, hv, hlen', hp, ha, hinit, hsplit]
    · simp [mainModel, hv, hlen', hp, ha, hinit]

/-- A main invocation with correct versions and an unrecognized -z
    flag on the command line. -/
def envC9unrec : MainEnv :=
  { versions := { structsMajor := 3, structsMinor := 0,
                  apiMajor := 4, apiMinor := 1 },
    argv := ["validate_quality", "vectorQ", "-z"],
    actionMap := stdActionMap,
    initStatus := { code := ReturnCode.Success, info := "" },
    splitOk := true,
    childStatuses := [] }

/-- Witness for the amended C9: a concrete run with the unrecognized
    flag -z prints usage and exits with the failure code, touching
    nothing. -/
theorem c9_usage_gate_witness :
    versionGate envC9unrec.versions = none
    ∧ parseFlags (envC9unrec.argv.drop 2) defaultArgs = ParseOut.usageExit
    ∧ mainModel envC9unrec = usageTrace :=
  ⟨by decide, by decide,
    (c9_usage_gate envC9unrec (by decide)).1 (by decide)⟩

/- ----------------------------------------------------------------- -/
/- Concrete witness data.                                             -/
/- ----------------------------------------------------------------- -/

/-- A small concrete raster. -/
def imgT : Image :=
  { width := 4, height := 4, depth := 24, data := [0, 1, 2],
    description := ImageDescription.Unknown,
    illuminant := Illuminant.Visible }

/-- A concrete assessment: a bounding box, measure 0 present, measure 1
    absent. -/
def asmT : ImageQualityAssessment :=
  { boundingBox := { xleft := 0, ytop := 1, width := 10, height := 12 },
    qAssessments := [(0, "0.75")] }

/-- A success status. -/
def stOk : ReturnStatus := { code := ReturnCode.Success, info := "" }

/-- A per-record failure status that is not the sentinel. -/
def stFD : ReturnStatus := { code := ReturnCode.FaceDetectionError, info := "" }

/-- The capability-absent sentinel status. -/
def stNI : ReturnStatus := { code := ReturnCode.NotImplemented, info := "" }

/-- A concrete worker environment: the algorithm succeeds on call 0,
    reports a face-detection failure on call 1 and declines with
    NotImplemented from call 2 on; the file bad.ppm does not decode. -/
def envT : Env :=
  { readImage := fun p => if p = "bad.ppm" then none else some imgT,
    mapStringToImgLabel := fun _ => ImageDescription.StillMugshot,
    vectorQuality := fun idx _ =>
      if idx = 0 then (stOk, asmT)
      else if idx = 1 then (stFD, ImageQualityAssessment.default)
      else (stNI, ImageQualityAssessment.default),
    measures := [0, 1],
    measureName := fun m => if m = 0 then "sharpness" else "contrast" }

/-- A concrete worker environment: call 1 reports a face-detection
    failure, every other call succeeds; bad.ppm does not decode. -/
def envKeep : Env :=
  { readImage := fun p => if p = "bad.ppm" then none else some imgT,
    mapStringToImgLabel := fun _ => ImageDescription.StillMugshot,
    vectorQuality := fun idx _ =>
      if idx = 1 then (stFD, ImageQualityAssessment.default)
      else (stOk, asmT),
    measures := [0, 1],
    measureName := fun m => if m = 0 then "sharpness" else "contrast" }

/-- The i-th concrete manifest record. -/
def recT (i : Nat) : Record :=
  { id := toString i, imagePath := "img" ++ toString i ++ ".ppm",
    desc := "mugshot" }

/-- A record whose image does not decode. -/
def recBad : Record :=
  { id := "9", imagePath := "bad.ppm", desc := "mugshot" }

/-- Witness for C2: a five-record shard hitting the sentinel on the
    third record keeps only the first two rows, deletes both files and
    exits NOT_IMPLEMENTED. -/
theorem c2_witness :
    processedOk envT 0 [recT 0, recT 1] = true
    ∧ evalAt envT (List.length [recT 0, recT 1]) (recT 2) =
        some (stNI, ImageQualityAssessment.default)
    ∧ stNI.code = ReturnCode.NotImplemented
    ∧ (runQuality envT [recT 0, recT 1, recT 2, recT 3, recT 4]
          Action.VectorQ =
        { log := headerLine envT :: rowsFor envT 0 [recT 0, recT 1],
          inputDeleted := true, logDeleted := true,
          exit := RunExit.exit NOT_IMPLEMENTED }
      ∧ NOT_IMPLEMENTED ≠ SUCCESS ∧ NOT_IMPLEMENTED ≠ FAILURE) :=
  ⟨by decide, by decide, rfl,
    c2_not_implemented_short_circuit envT [recT 0, recT 1] (recT 2)
      [recT 3, recT 4] stNI ImageQualityAssessment.default
      (by decide) (by decide) rfl⟩

/-- Witness for C4: three records split into two shards concatenate
    back to the original manifest. -/
theorem c4_witness :
    1 ≤ 2
    ∧ ((splitRecords [recT 0, recT 1, recT 2] 2).flatten
          = [recT 0, recT 1, recT 2]
      ∧ ((splitRecords [recT 0, recT 1, recT 2] 2).map List.length).sum
          = [recT 0, recT 1, recT 2].length
      ∧ (splitRecords [recT 0, recT 1, recT 2] 2).length = 2) :=
  ⟨by decide, c4_partition_complete [recT 0, recT 1, recT 2] 2 (by decide)⟩

/-- Witness for C5: a face-detection failure on the second record is
    logged as a data row with its numeric code and the run continues
    with the third record. -/
theorem c5_witness :
    processedOk envKeep 0 [recT 0] = true
    ∧ evalAt envKeep (List.length [recT 0]) (recT 1) =
        some (stFD, ImageQualityAssessment.default)
    ∧ stFD.code ≠ ReturnCode.Success
    ∧ stFD.code ≠ ReturnCode.NotImplemented
    ∧ (runQuality envKeep [recT 0, recT 1, recT 2] Action.VectorQ =
        finishRun ((headerLine envKeep :: rowsFor envKeep 0 [recT 0])
            ++ [logRow envKeep (recT 1) stFD ImageQualityAssessment.default])
          (runLoop envKeep Action.VectorQ (List.length [recT 0] + 1) stFD
            [recT 2])
      ∧ (logRow envKeep (recT 1) stFD ImageQualityAssessment.default).get? 2
          = some (toString stFD.code.val)) :=
  ⟨by decide, by decide, by decide, by decide,
    c5_record_failure_continues envKeep [recT 0] (recT 1) [recT 2] stFD
      ImageQualityAssessment.default (by decide) (by decide)
      (by decide) (by decide)⟩

/-- Witness for C7: a one-record successful shard ends with the input
    deleted, the log retained, and the manifest untouched. -/
theorem c7_witness :
    (runQuality envKeep [recT 0] Action.VectorQ).exit ≠ RunExit.signaled
    ∧ ((runQuality envKeep [recT 0] Action.VectorQ).inputDeleted = true
      ∧ ((runQuality envKeep [recT 0] Action.VectorQ).logDeleted = true ↔
          (runQuality envKeep [recT 0] Action.VectorQ).exit =
            RunExit.exit NOT_IMPLEMENTED)
      ∧ ((runQuality envKeep [recT 0] Action.VectorQ).exit =
            RunExit.exit SUCCESS →
          (runQuality envKeep [recT 0] Action.VectorQ).logDeleted = false)
      ∧ ("manifest.txt" ≠ "shard.0" → "manifest.txt" ≠ "out.log.0" →
          "manifest.txt" ∉
            deletedFiles (runQuality envKeep [recT 0] Action.VectorQ)
              "shard.0" "out.log.0")) :=
  ⟨by decide, c7_cleanup envKeep [recT 0] Action.VectorQ "manifest.txt"
      "shard.0" "out.log.0" (by decide)⟩

/-- Witness for C8: a decode failure on the second record kills the
    worker with only the first row logged and nothing deleted. -/
theorem c8_witness :
    processedOk envKeep 0 [recT 0] = true
    ∧ envKeep.readImage recBad.imagePath = none
    ∧ runQuality envKeep [recT 0, recBad, recT 2] Action.VectorQ =
        { log := headerLine envKeep :: rowsFor envKeep 0 [recT 0],
          inputDeleted := false, logDeleted := false,
          exit := RunExit.signaled } :=
  ⟨by decide, by decide,
    c8_decode_failure_aborts envKeep [recT 0] recBad [recT 2]
      (by decide) (by decide)⟩

end NistQuality
